import Mathlib

/-!
Verification development for the log-extension core: a shallow embedding of
`src/Auth0Storage.js` (checkpoint persistence) and `src/processor.js`
(batch/retry run orchestration), with theorems checking the specified
behaviour against the embedded code.

JavaScript values flowing through the storage layer are modelled by the
`Json` inductive below; `undefined` (a possible result of `storage.read()`)
is modelled as `Option.none` at the interface boundaries.  Fallible code
paths (JavaScript `TypeError`s) are modelled with `Except String`.
-/

/-- Model of a JSON-like JavaScript value (the documents held by the
underlying key-value store, run statuses, checkpoints).  Objects keep their
fields in insertion order, as JavaScript objects do. -/
inductive Json where
  | null : Json
  | bool : Bool → Json
  | num : Int → Json
  | str : String → Json
  | arr : List Json → Json
  | obj : List (String × Json) → Json

/-- JavaScript truthiness of a value: `null`, `false`, `0` and the empty
string are falsy; arrays and objects are always truthy. -/
def jsTruthy : Json → Bool
  | Json.null => false
  | Json.bool b => b
  | Json.num n => decide (n ≠ 0)
  | Json.str s => decide (s ≠ "")
  | Json.arr _ => true
  | Json.obj _ => true

/-- Truthiness of a possibly-absent value (`none` models `undefined`). -/
def jsTruthyOpt : Option Json → Bool
  | none => false
  | some v => jsTruthy v

/-- Property read on an object's field list: `fields.k`, `none` when the
property is absent (JavaScript `undefined`). -/
def lookupField : List (String × Json) → String → Option Json
  | [], _ => none
  | (k', v) :: rest, k => if k' = k then some v else lookupField rest k

/-- Property write on an object's field list: `fields.k = v`.  JavaScript
updates an existing key in place (keeping its position) and appends a new
key at the end. -/
def setField : List (String × Json) → String → Json → List (String × Json)
  | [], k, v => [(k, v)]
  | (k', v') :: rest, k, v =>
      if k' = k then (k, v) :: rest else (k', v') :: setField rest k v

/-- Model of the JavaScript expression `x || null` where `x` may be
`undefined` (`none`): yields `x` if truthy, otherwise `null`. -/
def jsOrNull (x : Option Json) : Json :=
  match x with
  | none => Json.null
  | some v => if jsTruthy v then v else Json.null

/-- Model of `x || y` where `x` may be `undefined` and `y` is already a
value: yields `x` if truthy, otherwise `y`. -/
def jsOrElse (x : Option Json) (y : Json) : Json :=
  match x with
  | none => y
  | some v => if jsTruthy v then v else y

/-- Hexadecimal digit used by the `\u00XX` escapes of `JSON.stringify`. -/
def hexDigit (n : Nat) : Char :=
  if n < 10 then Char.ofNat (48 + n) else Char.ofNat (87 + n)

/-- Escaping of a single character as performed by `JSON.stringify` on
string values. -/
def escapeJsonChar (c : Char) : String :=
  if c = '"' then "\\\""
  else if c = '\\' then "\\\\"
  else if c = '\x08' then "\\b"
  else if c = '\x09' then "\\t"
  else if c = '\x0a' then "\\n"
  else if c = '\x0c' then "\\f"
  else if c = '\x0d' then "\\r"
  else if c.toNat < 32 then
    "\\u00" ++ String.mk [hexDigit (c.toNat / 16), hexDigit (c.toNat % 16)]
  else String.mk [c]

/-- Escaping of a whole string as performed by `JSON.stringify`. -/
def escapeJsonString (s : String) : String :=
  s.data.foldl (fun acc c => acc ++ escapeJsonChar c) ""

/-- Quoted, escaped JSON string literal. -/
def quoteJson (s : String) : String :=
  "\"" ++ escapeJsonString s ++ "\""

mutual

/-- Model of `JSON.stringify` on the `Json` value model. -/
def jsonStringify : Json → String
  | Json.null => "null"
  | Json.bool b => if b then "true" else "false"
  | Json.num n => toString n
  | Json.str s => quoteJson s
  | Json.arr xs => "[" ++ jsonStringifyList xs ++ "]"
  | Json.obj fs => "\x7b" ++ jsonStringifyFields fs ++ "\x7d"

/-- Comma-separated serialization of array elements. -/
def jsonStringifyList : List Json → String
  | [] => ""
  | [x] => jsonStringify x
  | x :: y :: xs => jsonStringify x ++ "," ++ jsonStringifyList (y :: xs)

/-- Comma-separated serialization of object fields. -/
def jsonStringifyFields : List (String × Json) → String
  | [] => ""
  | [(k, v)] => quoteJson k ++ ":" ++ jsonStringify v
  | (k, v) :: f :: fs =>
      quoteJson k ++ ":" ++ jsonStringify v ++ "," ++ jsonStringifyFields (f :: fs)

end

/-- Model of `Buffer.byteLength(JSON.stringify(data), 'utf8')`: the UTF-8
byte size of the serialized document. -/
def jsonByteSize (j : Json) : Nat :=
  (jsonStringify j).utf8ByteSize

namespace Auth0Storage

/-- Constructor logic of `Auth0Storage(storage, limit)`:
`this.limit = (typeof limit === 'undefined') ? 400 : limit`. -/
def mkLimit (limit : Option Nat) : Nat :=
  match limit with
  | none => 400
  | some l => l

/-- Embedding of `Auth0Storage.prototype.getCheckpoint(startFrom)`.
`data` is the result of `storage.read()` (`none` models `undefined`);
the body evaluates
`typeof data === 'undefined' ? startFrom || null : data.checkpointId || startFrom || null`.
Reading `.checkpointId` on a `null` document throws in JavaScript, which is
the only error path; on a non-object document the property read yields
`undefined`. -/
def getCheckpoint (data : Option Json) (startFrom : Option Json) : Except String Json :=
  match data with
  | none => Except.ok (jsOrNull startFrom)
  | some Json.null => Except.error "TypeError: cannot read checkpointId of null"
  | some (Json.obj fs) => Except.ok (jsOrElse (lookupField fs "checkpointId") (jsOrNull startFrom))
  | some _ => Except.ok (jsOrNull startFrom)

/-- Embedding of `Auth0Storage.prototype.done(status, checkpoint)`.
The body reads the document, computes
`Buffer.byteLength(JSON.stringify(data), 'utf8')`, defaults `data.logs` to
`[]` when falsy, removes the first five log entries (`data.logs.splice(0, 5)`)
when the serialized size is at or above `limit * 1024` and the log list is
non-empty, then sets `status.checkpoint`, appends `status` to `data.logs`,
sets `data.checkpointId` and writes the document back.  When `storage.read()`
yielded `undefined` (`none` here), `JSON.stringify(data)` is `undefined` and
`Buffer.byteLength` throws a `TypeError`; a non-object document likewise ends
in a `TypeError` (at `data.logs.push` / `data.logs.splice`).  The returned
value is the document passed to `storage.write`. -/
def done (limit : Nat) (data : Option Json) (status : Json) (checkpoint : Json) :
    Except String Json :=
  match data with
  | none => Except.error "TypeError: byteLength of undefined"
  | some d =>
    let storageSize := jsonByteSize d
    match d with
    | Json.obj fields =>
      let fields :=
        if jsTruthyOpt (lookupField fields "logs") then fields
        else setField fields "logs" (Json.arr [])
      match lookupField fields "logs" with
      | some (Json.arr logs) =>
        let logs :=
          if storageSize ≥ limit * 1024 ∧ logs.length ≠ 0 then logs.drop 5 else logs
        let status :=
          match status with
          | Json.obj sfields => Json.obj (setField sfields "checkpoint" checkpoint)
          | other => other
        let fields := setField fields "logs" (Json.arr (logs ++ [status]))
        let fields := setField fields "checkpointId" checkpoint
        Except.ok (Json.obj fields)
      | _ => Except.error "TypeError: data.logs does not support splice or push"
    | _ => Except.error "TypeError: cannot use logs of a non-object document"

end Auth0Storage

namespace LogsProcessor

/-- Embedding of lodash `_.assign(dst, src)` on object field lists: copies
the fields of `src` into `dst` left to right, so later sources override
earlier ones. -/
def lodashAssign : List (String × Json) → List (String × Json) → List (String × Json)
  | dst, [] => dst
  | dst, (k, v) :: rest => lodashAssign (setField dst k v) rest

/-- Embedding of the option processing in the `LogsProcessor` constructor:
`this.options = _.assign(\x7b \x7d, options, \x7b batchSize: 100, maxRetries: 5,
maxRunTimeSeconds: 20 \x7d)`.  The literal with the default values is the
last source passed to `_.assign`, so its fields are copied after the
caller's. -/
def mkOptions (options : List (String × Json)) : List (String × Json) :=
  lodashAssign (lodashAssign [] options)
    [("batchSize", Json.num 100), ("maxRetries", Json.num 5),
     ("maxRunTimeSeconds", Json.num 20)]

/-- Embedding of lodash `_.uniq`: keeps the first occurrence of each
element, preserving order. -/
def lodashUniq (xs : List String) : List String :=
  xs.foldl (fun acc x => if x ∈ acc then acc else acc ++ [x]) []

/-- Embedding of lodash `_.filter(collection, predicate)` applied to an
OBJECT collection: lodash iterates the object's values and returns an
ARRAY of the values satisfying the predicate (the keys are lost).  The
log-type filter table is an object mapping each type name to its numeric
severity level, modelled here as an ordered association list. -/
def lodashFilterValues (table : List (String × Nat)) (p : Nat → Bool) : List Nat :=
  (table.filter (fun kv => p kv.2)).map (fun kv => kv.2)

/-- Embedding of lodash `_.keys` applied to an ARRAY: the own enumerable
property names of an array are its indices as strings. -/
def lodashKeysOfArray {α : Type} (xs : List α) : List String :=
  (List.range xs.length).map (fun i => toString i)

/-- Embedding of `LogsProcessor.prototype.getLogFilter(options)`:
`types = options.logTypes || []`, then when `options.logLevel` is truthy,
`types = types.concat(_.keys(_.filter(logTypes, t => t.level >= options.logLevel)))`,
and finally `_.uniq(types)`.  The filter table (the external `logTypes`
module) is passed as `table`; `none` models an absent option and a
`logLevel` of `0` is falsy. -/
def getLogFilter (table : List (String × Nat)) (logTypesOpt : Option (List String))
    (logLevel : Option Nat) : List String :=
  let types := logTypesOpt.getD []
  let types :=
    match logLevel with
    | some l =>
        if l ≠ 0 then
          types ++ lodashKeysOfArray (lodashFilterValues table (fun level => decide (level ≥ l)))
        else types
    | none => types
  lodashUniq types

/-- Embedding of `LogsProcessor.prototype.hasTimeLeft(start)`:
`(start + limit) * 1000 >= now` where `limit` is `maxRunTimeSeconds`,
`start` is the millisecond timestamp taken at the beginning of `run()` and
`now` is the current millisecond wall clock. -/
def hasTimeLeft (maxRunTimeSeconds start now : Nat) : Bool :=
  decide ((start + maxRunTimeSeconds) * 1000 ≥ now)

/-- Embedding of `getNextLimit()` inside `run()`:
`limit = batchSize - logsBatch.length; if (limit > 100) limit = 100`.
JavaScript subtraction can go negative, so the result is an integer. -/
def getNextLimit (batchSize logsBatchLength : Nat) : Int :=
  let limit : Int := (batchSize : Int) - (logsBatchLength : Int)
  if limit > 100 then 100 else limit

/-- Run status as used by `runSuccess`: the processed-record count and the
optional staleness warning attached to it. -/
structure RunStatus where
  logsProcessed : Nat
  warning : Option String
deriving Repr, DecidableEq

/-- Milliseconds in a week, the staleness threshold of `runSuccess`. -/
def week : Nat := 604800000

/-- Outcome of `runSuccess`: the `(status, checkpoint)` pair passed to
`storage.done` if persistence was invoked (`none` when it was skipped), and
the `\x7b status, checkpoint \x7d` value the run promise resolves with. -/
structure SuccessOutcome where
  persisted : Option (RunStatus × String)
  resolvedStatus : RunStatus
  resolvedCheckpoint : String
deriving Repr, DecidableEq

/-- Embedding of `runSuccess(status, checkpoint)` inside `run()`: when
`status.logsProcessed > 0`, compute `timeDiff = now - lastLogDate`, attach
the staleness warning when `timeDiff >= week`, persist via
`storage.done(status, checkpoint)` and resolve; otherwise resolve directly
without persisting.  The warning text renders the last log date with
`new Date(lastLogDate)`, abstracted here as the numeric timestamp. -/
def runSuccess (lastLogDate now : Int) (status : RunStatus) (checkpoint : String) :
    SuccessOutcome :=
  if status.logsProcessed > 0 then
    let timeDiff := now - lastLogDate
    let status :=
      if timeDiff ≥ (week : Int) then
        { status with
          warning := some ("Logs are outdated more than for week. Last processed log has date is "
            ++ toString lastLogDate) }
      else status
    { persisted := some (status, checkpoint), resolvedStatus := status,
      resolvedCheckpoint := checkpoint }
  else
    { persisted := none, resolvedStatus := status, resolvedCheckpoint := checkpoint }

/-- Terminating error of a failed run: either the handler's own error
passed through unchanged (`runFailed(err, ...)`), or the two-element skip
error `['Skipping logs from ... retries.', err]` built after retry
exhaustion. -/
inductive RunError where
  | handlerErr : String → RunError
  | skipRange : String → String → RunError
deriving Repr, DecidableEq

/-- Observable result of the retry loop: the batches passed to
`handler.onLogsReceived` by the retry policy, the terminating error given
to `runFailed`, and the checkpoint `runFailed` persists via
`storage.done(status, checkpoint)`. -/
structure RetryResult (α : Type) where
  deliveries : List (List α)
  error : RunError
  checkpoint : String
deriving Repr, DecidableEq

/-- The message of the skip-range error built by `retryProcess` when
retries are exhausted. -/
def skipMsg (prev last : String) (maxRetries : Nat) : String :=
  "Skipping logs from " ++ prev ++ " to " ++ last ++ " after " ++
    toString maxRetries ++ " retries."

/-- Embedding of the `retryProcess` loop of `run()` for a handler that
fails every delivery.  At each entry (the code's `retryProcess(err, stream,
handleError)`): if `hasTimeLeft(start)` is false the run fails with the
current error at `stream.previousCheckpoint`; else if `retries < maxRetries`
the counter is incremented and the identical `logsBatch` is redelivered —
the handler answers with the error `errAt retries`, which re-enters the
loop; otherwise the run fails with the skip-range error (wrapping the most
recent handler error) at `stream.lastCheckpoint`.  `nowAt k` is the wall
clock observed by the `hasTimeLeft` check when the counter equals `k`. -/
def retrySim {α : Type} (maxRetries maxRunTimeSeconds start : Nat) (nowAt : Nat → Nat)
    (errAt : Nat → String) (batch : List α) (prev last : String) (err : String)
    (retries : Nat) : RetryResult α :=
  if hasTimeLeft maxRunTimeSeconds start (nowAt retries) = false then
    { deliveries := [], error := RunError.handlerErr err, checkpoint := prev }
  else if h : retries < maxRetries then
    let r := retrySim maxRetries maxRunTimeSeconds start nowAt errAt batch prev last
      (errAt retries) (retries + 1)
    { deliveries := batch :: r.deliveries, error := r.error, checkpoint := r.checkpoint }
  else
    { deliveries := [], error := RunError.skipRange (skipMsg prev last maxRetries) err,
      checkpoint := last }
termination_by maxRetries - retries
decreasing_by omega

end LogsProcessor

/-! Helper lemmas about the object-field operations and the retry loop. -/

theorem lookupField_setField_self (fs : List (String × Json)) (k : String) (v : Json) :
    lookupField (setField fs k v) k = some v := by
  induction fs with
  | nil => simp [setField, lookupField]
  | cons p rest ih =>
    obtain ⟨k', v'⟩ := p
    by_cases h : k' = k
    · simp [setField, lookupField, h]
    · simp [setField, lookupField, h, ih]

theorem lookupField_setField_ne (fs : List (String × Json)) (k k' : String) (v : Json)
    (h : k ≠ k') : lookupField (setField fs k v) k' = lookupField fs k' := by
  induction fs with
  | nil => simp [setField, lookupField, h]
  | cons p rest ih =>
    obtain ⟨k₀, v₀⟩ := p
    by_cases h0 : k₀ = k
    · subst h0
      simp [setField, lookupField, h]
    · simp [setField, lookupField, h0, ih]

theorem drop_five_eq_drop_min (logs : List Json) :
    logs.drop 5 = logs.drop (min 5 logs.length) := by
  rcases Nat.le_total 5 logs.length with h | h
  · rw [Nat.min_eq_left h]
  · rw [Nat.min_eq_right h, List.drop_eq_nil_of_le h,
      List.drop_eq_nil_of_le (Nat.le_refl _)]

theorem retrySim_exhaust {α : Type} (maxRetries m start : Nat) (nowAt : Nat → Nat)
    (errAt : Nat → String) (batch : List α) (prev last : String)
    (htime : ∀ k, LogsProcessor.hasTimeLeft m start (nowAt k) = true) :
    ∀ n retries err, maxRetries - retries = n →
      LogsProcessor.retrySim maxRetries m start nowAt errAt batch prev last err retries =
        { deliveries := List.replicate n batch,
          error := LogsProcessor.RunError.skipRange (LogsProcessor.skipMsg prev last maxRetries)
            (if retries < maxRetries then errAt (maxRetries - 1) else err),
          checkpoint := last } := by
  intro n
  induction n with
  | zero =>
    intro retries err hn
    have hge : ¬ retries < maxRetries := by omega
    unfold LogsProcessor.retrySim
    rw [htime retries]
    simp [hge]
  | succ n ih =>
    intro retries err hn
    have hlt : retries < maxRetries := by omega
    unfold LogsProcessor.retrySim
    rw [htime retries]
    simp only [Bool.true_eq_false, if_false, hlt, dif_pos]
    rw [ih (retries + 1) (errAt retries) (by omega)]
    by_cases h2 : retries + 1 < maxRetries
    · simp [h2, hlt, List.replicate_succ]
    · have : retries = maxRetries - 1 := by omega
      subst this
      simp [h2, List.replicate_succ]

/-! Claim theorems. -/

/-- C1: the claim says the configuration values `batchSize`, `maxRetries`
and `maxRunTimeSeconds` equal the caller-supplied values when present and
default to 100, 5 and 20 only when absent.  The code instead passes the
default literal as the LAST source of `_.assign`, so the defaults override
every caller-supplied value: for every options object, the three values
used by `run()` are always 100, 5 and 20. -/
theorem c1_options_always_overridden (options : List (String × Json)) :
    lookupField (LogsProcessor.mkOptions options) "batchSize" = some (Json.num 100)
    ∧ lookupField (LogsProcessor.mkOptions options) "maxRetries" = some (Json.num 5)
    ∧ lookupField (LogsProcessor.mkOptions options) "maxRunTimeSeconds" = some (Json.num 20) := by
  have key : LogsProcessor.mkOptions options =
      setField (setField (setField (LogsProcessor.lodashAssign [] options)
        "batchSize" (Json.num 100)) "maxRetries" (Json.num 5))
        "maxRunTimeSeconds" (Json.num 20) := rfl
  rw [key]
  refine ⟨?_, ?_, ?_⟩
  · rw [lookupField_setField_ne _ _ _ _ (by decide),
      lookupField_setField_ne _ _ _ _ (by decide), lookupField_setField_self]
  · rw [lookupField_setField_ne _ _ _ _ (by decide), lookupField_setField_self]
  · rw [lookupField_setField_self]

/-- C2: the claim says `getLogFilter` returns the deduplicated union of
`logTypes` and the NAMES of the filter-table entries whose level is at
least `logLevel`, so that with `logTypes = ["a"]`, `logLevel = 2` and table
`a ↦ 1, b ↦ 2, c ↦ 3` the result is the set containing a, b and c.  The
code computes `_.keys(_.filter(table, ...))`: lodash `_.filter` on an
object returns an array of matching VALUES, and `_.keys` of that array
yields its indices as strings, so the result is `["a", "0", "1"]` and the
names b and c are absent. -/
theorem c2_filter_returns_indices :
    LogsProcessor.getLogFilter [("a", 1), ("b", 2), ("c", 3)] (some ["a"]) (some 2)
        = ["a", "0", "1"]
    ∧ "b" ∉ LogsProcessor.getLogFilter [("a", 1), ("b", 2), ("c", 3)] (some ["a"]) (some 2)
    ∧ "c" ∉ LogsProcessor.getLogFilter [("a", 1), ("b", 2), ("c", 3)] (some ["a"]) (some 2) := by
  refine ⟨rfl, ?_, ?_⟩ <;> decide

/-- C4: with time remaining at every check, a handler that fails every
delivery makes the retry policy redeliver the identical batch exactly
`maxRetries` times, after which the run fails with the skip-range error
naming `previousCheckpoint` and `lastCheckpoint` (wrapping the most recent
handler error), and `runFailed` persists `lastCheckpoint` via
`storage.done`. -/
theorem c4_retry_exhaustion {α : Type} (maxRetries m start : Nat) (nowAt : Nat → Nat)
    (errAt : Nat → String) (batch : List α) (prev last err : String)
    (htime : ∀ k, LogsProcessor.hasTimeLeft m start (nowAt k) = true)
    (hpos : 0 < maxRetries) :
    LogsProcessor.retrySim maxRetries m start nowAt errAt batch prev last err 0 =
      { deliveries := List.replicate maxRetries batch,
        error := LogsProcessor.RunError.skipRange
          ("Skipping logs from " ++ prev ++ " to " ++ last ++ " after " ++
            toString maxRetries ++ " retries.") (errAt (maxRetries - 1)),
        checkpoint := last } := by
  have h := retrySim_exhaust maxRetries m start nowAt errAt batch prev last htime
    maxRetries 0 err (by omega)
  rw [h]
  simp [LogsProcessor.skipMsg, hpos]

/-- Witness for C4 at a concrete input: two retries configured, the budget
never expires, every delivery fails. -/
theorem c4_retry_exhaustion_witness :
    (∀ k, LogsProcessor.hasTimeLeft 1 0 ((fun _ : Nat => 500) k) = true) ∧ 0 < 2 ∧
    LogsProcessor.retrySim 2 1 0 (fun _ : Nat => 500) (fun _ : Nat => "e") [(1 : Nat), 2] "cp0" "cp9" "e0" 0 =
      { deliveries := [[1, 2], [1, 2]],
        error := LogsProcessor.RunError.skipRange
          "Skipping logs from cp0 to cp9 after 2 retries." "e",
        checkpoint := "cp9" } :=
  ⟨fun _ => rfl, by decide,
    c4_retry_exhaustion 2 1 0 (fun _ => 500) (fun _ => "e") [1, 2] "cp0" "cp9" "e0"
      (fun _ => rfl) (by decide)⟩

/-- C5: when the handler reports a failure after the budget has expired —
`(start + maxRunTimeSeconds) * 1000 < now`, i.e. `hasTimeLeft(start)` is
false — the retry policy concludes the run as failed immediately at
`stream.previousCheckpoint` with the handler's error, performing no
further delivery, whatever the current retry counter is. -/
theorem c5_budget_expired {α : Type} (maxRetries m start retries : Nat) (nowAt : Nat → Nat)
    (errAt : Nat → String) (batch : List α) (prev last err : String)
    (h : (start + m) * 1000 < nowAt retries) :
    LogsProcessor.retrySim maxRetries m start nowAt errAt batch prev last err retries =
      { deliveries := [], error := LogsProcessor.RunError.handlerErr err,
        checkpoint := prev } := by
  have hf : LogsProcessor.hasTimeLeft m start (nowAt retries) = false := by
    simp only [LogsProcessor.hasTimeLeft, decide_eq_false_iff_not]
    omega
  unfold LogsProcessor.retrySim
  rw [hf]
  simp

/-- Witness for C5 at a concrete input: the clock is past the budget while
three of the five configured retries remain. -/
theorem c5_budget_expired_witness :
    (0 + 0) * 1000 < 1 ∧
    LogsProcessor.retrySim 5 0 0 (fun _ : Nat => 1) (fun _ : Nat => "x") ([] : List Nat) "p" "l" "boom" 2 =
      { deliveries := [], error := LogsProcessor.RunError.handlerErr "boom",
        checkpoint := "p" } :=
  ⟨by decide,
    c5_budget_expired 5 0 0 2 (fun _ : Nat => 1) (fun _ : Nat => "x") ([] : List Nat) "p" "l" "boom"
      (by decide)⟩

/-- C6: the claim says `done` succeeds when `storage.read()` yields no
document, creating the document on first write with an empty `logs`
sequence.  In the code, `JSON.stringify(data)` of an undefined document is
`undefined`, on which `Buffer.byteLength` throws (and `data.logs` would
throw next), so `done` fails for every status and checkpoint. -/
theorem c6_done_requires_document (limit : Nat) (status checkpoint : Json) :
    Auth0Storage.done limit none status checkpoint =
      Except.error "TypeError: byteLength of undefined" := rfl

/-- C8: a run that concludes successfully with `status.logsProcessed = 0`
resolves with the status and checkpoint without invoking `storage.done`,
leaving the persisted document unchanged. -/
theorem c8_zero_records_no_persist (lastLogDate now : Int)
    (status : LogsProcessor.RunStatus) (checkpoint : String)
    (h : status.logsProcessed = 0) :
    LogsProcessor.runSuccess lastLogDate now status checkpoint =
      { persisted := none, resolvedStatus := status,
        resolvedCheckpoint := checkpoint } := by
  unfold LogsProcessor.runSuccess
  rw [h]
  simp

/-- Witness for C8 at a concrete input. -/
theorem c8_zero_records_no_persist_witness :
    ({ logsProcessed := 0, warning := none } : LogsProcessor.RunStatus).logsProcessed = 0 ∧
    LogsProcessor.runSuccess 0 99 { logsProcessed := 0, warning := none } "cp" =
      { persisted := none,
        resolvedStatus := { logsProcessed := 0, warning := none },
        resolvedCheckpoint := "cp" } :=
  ⟨rfl, c8_zero_records_no_persist 0 99 { logsProcessed := 0, warning := none } "cp" rfl⟩

/-- Counterexample to C9 as stated: the claim attaches the warning if and
only if the last record is MORE than 7 days (604800000 ms) behind now, but
the code tests `timeDiff >= week`, so at a lag of exactly 604800000 ms the
warning is attached although the lag is not more than a week. -/
theorem c9_counterexample :
    (LogsProcessor.runSuccess 0 604800000
        { logsProcessed := 1, warning := none } "cp").resolvedStatus.warning.isSome = true
    ∧ ¬ ((604800000 : Int) - 0 > (LogsProcessor.week : Int)) :=
  ⟨rfl, by decide⟩

/-- C9 (amended): for a successful run with at least one record processed
and no pre-existing warning, the warning is attached if and only if the
last processed record's timestamp is AT LEAST 7 days (604800000 ms) behind
the current time, and the resolved status (with the warning, when added) is
exactly what is persisted together with the checkpoint. -/
theorem c9_staleness_warning (lastLogDate now : Int) (status : LogsProcessor.RunStatus)
    (checkpoint : String) (h1 : 0 < status.logsProcessed) (h2 : status.warning = none) :
    ((LogsProcessor.runSuccess lastLogDate now status checkpoint).resolvedStatus.warning.isSome
        = true ↔ now - lastLogDate ≥ (LogsProcessor.week : Int))
    ∧ (LogsProcessor.runSuccess lastLogDate now status checkpoint).persisted =
        some ((LogsProcessor.runSuccess lastLogDate now status checkpoint).resolvedStatus,
          checkpoint) := by
  unfold LogsProcessor.runSuccess
  rw [if_pos h1]
  by_cases hw : now - lastLogDate ≥ (LogsProcessor.week : Int)
  · simp [hw]
  · simp [hw, h2]

/-- Witness for C9 (amended) at a concrete input: one record processed, no
lag, hence no warning, and the resolved status is persisted. -/
theorem c9_staleness_warning_witness :
    0 < ({ logsProcessed := 1, warning := none } : LogsProcessor.RunStatus).logsProcessed ∧
    (((LogsProcessor.runSuccess 0 0 { logsProcessed := 1, warning := none } "cp").resolvedStatus.warning.isSome
        = true ↔ (0 : Int) - 0 ≥ (LogsProcessor.week : Int))
    ∧ (LogsProcessor.runSuccess 0 0 { logsProcessed := 1, warning := none } "cp").persisted =
        some ((LogsProcessor.runSuccess 0 0 { logsProcessed := 1, warning := none } "cp").resolvedStatus,
          "cp")) :=
  ⟨by decide, c9_staleness_warning 0 0 { logsProcessed := 1, warning := none } "cp" (by decide) rfl⟩

/-- C10: for every configured `batchSize` and current batch length, the
page request size computed by `getNextLimit` equals
`min(100, batchSize - currentBatchLength)`; in particular it never exceeds
100 and never exceeds the remaining space toward `batchSize`. -/
theorem c10_next_limit (batchSize logsBatchLength : Nat) :
    LogsProcessor.getNextLimit batchSize logsBatchLength
        = min 100 ((batchSize : Int) - (logsBatchLength : Int))
    ∧ LogsProcessor.getNextLimit batchSize logsBatchLength ≤ 100
    ∧ LogsProcessor.getNextLimit batchSize logsBatchLength
        ≤ (batchSize : Int) - (logsBatchLength : Int) := by
  unfold LogsProcessor.getNextLimit
  by_cases h : ((batchSize : Int) - (logsBatchLength : Int)) > 100
  · rw [if_pos h]
    exact ⟨(min_eq_left (by omega)).symm, le_refl _, by omega⟩
  · rw [if_neg h]
    exact ⟨(min_eq_right (by omega)).symm, by omega, le_refl _⟩

/-- Characterization of `done` on an object document whose `logs` field is
an array: the document written back has the (possibly trimmed) log list
with the stamped status appended, and the new `checkpointId`. -/
theorem done_obj_eq (limit : Nat) (fields sfields : List (String × Json))
    (logs : List Json) (cp : Json)
    (hlogs : lookupField fields "logs" = some (Json.arr logs)) :
    Auth0Storage.done limit (some (Json.obj fields)) (Json.obj sfields) cp
      = Except.ok (Json.obj (setField (setField fields "logs"
          (Json.arr ((if jsonByteSize (Json.obj fields) ≥ limit * 1024 ∧ logs.length ≠ 0 then
              logs.drop 5 else logs)
            ++ [Json.obj (setField sfields "checkpoint" cp)]))) "checkpointId" cp)) := by
  unfold Auth0Storage.done
  simp only [hlogs, jsTruthyOpt, jsTruthy, eq_self_iff_true, if_true]

/-- Counterexample to C3 as stated: with a byte limit of 0 (an accepted
constructor argument) and a document holding a single log entry, the size
condition of the claim holds (serialized size is at or above
`limit * 1024` and the log list is non-empty) and yet only one entry — not
five — is evicted: `splice(0, 5)` removes `min(5, length)` entries.  The
eviction count is `(original length) + 1 appended - (final length)
= 1 + 1 - 1 = 1 ≠ 5`. -/
theorem c3_counterexample :
    Auth0Storage.done 0 (some (Json.obj [("logs", Json.arr [Json.str "s1"])]))
        (Json.obj []) (Json.str "c2")
      = Except.ok (Json.obj [("logs", Json.arr [Json.obj [("checkpoint", Json.str "c2")]]),
          ("checkpointId", Json.str "c2")])
    ∧ jsonByteSize (Json.obj [("logs", Json.arr [Json.str "s1"])]) ≥ 0 * 1024
    ∧ ([Json.str "s1"] : List Json).length = 1
    ∧ (1 : Nat) + 1 - 1 ≠ 5 :=
  ⟨rfl, Nat.zero_le _, rfl, by decide⟩

/-- C3 (amended): `done(status, checkpoint)` evicts the `min(5, length)`
oldest entries of the logs sequence if and only if the serialized byte
size of the document as read is at or above `limit * 1024` (the limit
defaulting to 400) and the logs sequence is non-empty; in all cases it
then sets `status.checkpoint`, appends the status, sets the document's
`checkpointId` to the checkpoint, and writes the document back. -/
theorem c3_done_trims_min_five (limit : Nat) (fields sfields : List (String × Json))
    (logs : List Json) (cp : String)
    (hlogs : lookupField fields "logs" = some (Json.arr logs)) :
    Auth0Storage.mkLimit none = 400
    ∧ ∃ out : List (String × Json),
      Auth0Storage.done limit (some (Json.obj fields)) (Json.obj sfields) (Json.str cp)
        = Except.ok (Json.obj out)
      ∧ lookupField out "logs" = some (Json.arr
          (logs.drop (if jsonByteSize (Json.obj fields) ≥ limit * 1024 ∧ logs.length ≠ 0 then
              min 5 logs.length else 0)
            ++ [Json.obj (setField sfields "checkpoint" (Json.str cp))]))
      ∧ lookupField out "checkpointId" = some (Json.str cp) := by
  refine ⟨rfl, ?_⟩
  rw [done_obj_eq limit fields sfields logs (Json.str cp) hlogs]
  refine ⟨_, rfl, ?_, lookupField_setField_self _ _ _⟩
  rw [lookupField_setField_ne _ _ _ _ (by decide), lookupField_setField_self]
  by_cases hc : jsonByteSize (Json.obj fields) ≥ limit * 1024 ∧ logs.length ≠ 0
  · rw [if_pos hc, if_pos hc, drop_five_eq_drop_min]
  · rw [if_neg hc, if_neg hc, List.drop_zero]

/-- Witness for C3 (amended) at a concrete input: byte limit 0 and six log
entries, so the size condition holds and the five oldest entries are
evicted. -/
theorem c3_done_trims_min_five_witness :
    lookupField [("logs", Json.arr [Json.num 1, Json.num 2, Json.num 3, Json.num 4,
        Json.num 5, Json.num 6])] "logs"
      = some (Json.arr [Json.num 1, Json.num 2, Json.num 3, Json.num 4, Json.num 5, Json.num 6])
    ∧ (Auth0Storage.mkLimit none = 400
    ∧ ∃ out : List (String × Json),
      Auth0Storage.done 0 (some (Json.obj [("logs", Json.arr [Json.num 1, Json.num 2,
          Json.num 3, Json.num 4, Json.num 5, Json.num 6])])) (Json.obj []) (Json.str "c9")
        = Except.ok (Json.obj out)
      ∧ lookupField out "logs" = some (Json.arr
          ([Json.num 1, Json.num 2, Json.num 3, Json.num 4, Json.num 5, Json.num 6].drop
            (if jsonByteSize (Json.obj [("logs", Json.arr [Json.num 1, Json.num 2, Json.num 3,
                Json.num 4, Json.num 5, Json.num 6])]) ≥ 0 * 1024
              ∧ ([Json.num 1, Json.num 2, Json.num 3, Json.num 4, Json.num 5,
                  Json.num 6] : List Json).length ≠ 0 then
              min 5 ([Json.num 1, Json.num 2, Json.num 3, Json.num 4, Json.num 5,
                Json.num 6] : List Json).length else 0)
            ++ [Json.obj (setField [] "checkpoint" (Json.str "c9"))]))
      ∧ lookupField out "checkpointId" = some (Json.str "c9")) :=
  ⟨rfl, c3_done_trims_min_five 0 [("logs", Json.arr [Json.num 1, Json.num 2, Json.num 3,
      Json.num 4, Json.num 5, Json.num 6])] []
    [Json.num 1, Json.num 2, Json.num 3, Json.num 4, Json.num 5, Json.num 6] "c9" rfl⟩

/-- Counterexample to C7 as stated: the empty string is a supplied
fallback, so by the claim `getCheckpoint('')` on a missing document should
return `''`; the code evaluates `startFrom || null` by truthiness and
returns `null` instead. -/
theorem c7_counterexample :
    Auth0Storage.getCheckpoint none (some (Json.str "")) = Except.ok Json.null
    ∧ Json.null ≠ Json.str "" :=
  ⟨rfl, fun h => Json.noConfusion h⟩

/-- C7 (amended): `getCheckpoint(fallback)` returns, in priority order,
the persisted document's `checkpointId` if present AND truthy, else the
supplied fallback if truthy, else `null` — and it never fails when the
document is missing (`read()` returned `undefined`).  The conjuncts cover
every outcome: a missing document never errors; a truthy persisted
`checkpointId` wins; with an absent or falsy `checkpointId` a truthy
fallback is returned, both when the document is present and when it is
missing; and when the `checkpointId` and the fallback are both absent or
falsy the result is `null`, again for a present as well as for a missing
document. -/
theorem c7_checkpoint_priority :
    (∀ startFrom : Option Json, ∃ v, Auth0Storage.getCheckpoint none startFrom = Except.ok v)
    ∧ (∀ (fs : List (String × Json)) (startFrom : Option Json) (c : Json),
        lookupField fs "checkpointId" = some c → jsTruthy c = true →
        Auth0Storage.getCheckpoint (some (Json.obj fs)) startFrom = Except.ok c)
    ∧ (∀ (fs : List (String × Json)) (s : Json),
        jsTruthyOpt (lookupField fs "checkpointId") = false → jsTruthy s = true →
        Auth0Storage.getCheckpoint (some (Json.obj fs)) (some s) = Except.ok s)
    ∧ (∀ s : Json, jsTruthy s = true →
        Auth0Storage.getCheckpoint none (some s) = Except.ok s)
    ∧ (∀ (fs : List (String × Json)) (startFrom : Option Json),
        jsTruthyOpt (lookupField fs "checkpointId") = false → jsTruthyOpt startFrom = false →
        Auth0Storage.getCheckpoint (some (Json.obj fs)) startFrom = Except.ok Json.null)
    ∧ (∀ startFrom : Option Json, jsTruthyOpt startFrom = false →
        Auth0Storage.getCheckpoint none startFrom = Except.ok Json.null) := by
  refine ⟨?_, ?_, ?_, ?_, ?_, ?_⟩
  · intro startFrom
    exact ⟨_, rfl⟩
  · intro fs startFrom c hc htr
    simp [Auth0Storage.getCheckpoint, jsOrElse, hc, htr]
  · intro fs s hfalse htr
    cases hl : lookupField fs "checkpointId" with
    | none => simp [Auth0Storage.getCheckpoint, jsOrElse, hl, jsOrNull, htr]
    | some v =>
      rw [hl] at hfalse
      simp only [jsTruthyOpt] at hfalse
      simp [Auth0Storage.getCheckpoint, jsOrElse, hl, hfalse, jsOrNull, htr]
  · intro s htr
    simp [Auth0Storage.getCheckpoint, jsOrNull, htr]
  · intro fs startFrom h1 h2
    have hnull : jsOrNull startFrom = Json.null := by
      cases startFrom with
      | none => rfl
      | some v =>
        simp only [jsTruthyOpt] at h2
        simp [jsOrNull, h2]
    cases hl : lookupField fs "checkpointId" with
    | none => simp [Auth0Storage.getCheckpoint, jsOrElse, hl, hnull]
    | some v =>
      rw [hl] at h1
      simp only [jsTruthyOpt] at h1
      simp [Auth0Storage.getCheckpoint, jsOrElse, hl, h1, hnull]
  · intro startFrom hfalse
    cases startFrom with
    | none => rfl
    | some v =>
      simp only [jsTruthyOpt] at hfalse
      simp [Auth0Storage.getCheckpoint, jsOrNull, hfalse]

/-- Witness for C7 (amended) at concrete inputs: a truthy persisted
checkpoint wins; a truthy fallback is used when the document has no
checkpoint and also when the document is missing; a present document with
a falsy `checkpointId` and a falsy fallback yields `null`, as does a
missing document with no fallback. -/
theorem c7_checkpoint_priority_witness :
    Auth0Storage.getCheckpoint (some (Json.obj [("checkpointId", Json.str "abc")])) none
      = Except.ok (Json.str "abc")
    ∧ Auth0Storage.getCheckpoint (some (Json.obj [])) (some (Json.str "fb"))
      = Except.ok (Json.str "fb")
    ∧ Auth0Storage.getCheckpoint none (some (Json.str "fb2")) = Except.ok (Json.str "fb2")
    ∧ Auth0Storage.getCheckpoint (some (Json.obj [("checkpointId", Json.str "")]))
        (some (Json.str "")) = Except.ok Json.null
    ∧ Auth0Storage.getCheckpoint none none = Except.ok Json.null :=
  ⟨c7_checkpoint_priority.2.1 [("checkpointId", Json.str "abc")] none (Json.str "abc") rfl rfl,
   c7_checkpoint_priority.2.2.1 [] (Json.str "fb") rfl rfl,
   c7_checkpoint_priority.2.2.2.1 (Json.str "fb2") rfl,
   c7_checkpoint_priority.2.2.2.2.1 [("checkpointId", Json.str "")] (some (Json.str "")) rfl rfl,
   c7_checkpoint_priority.2.2.2.2.2 none rfl⟩
